import Mathlib

/-!
Shallow embedding of the triple-buffer LVGL display driver for the
ESP32-S3 (src/triplebuffer.c).

Buffers are modelled as byte-indexed maps `Nat → Nat`.  The three
physical framebuffers are indexed by `Fin 3`, and the role assignment
(which buffer currently holds the Work / Back / Front role) is three
`Fin 3` fields of the system state `TBState`.  `memcpy` becomes a
pointwise range overwrite, the per-row copy loop of `lvgl_flush_cb`
becomes structural recursion over the row count, and the GDMA copy
(with its synchronous-memcpy fallback) becomes a full-range overwrite
together with a flag recording whether the caller blocked on the
completion semaphore.
-/

/-- Display width in pixels (`DISP_WIDTH` in the source). -/
def DISP_WIDTH : Nat := 720

/-- Display height in pixels (`DISP_HEIGHT`). -/
def DISP_HEIGHT : Nat := 720

/-- Bytes per pixel for RGB565 (`DISP_BPP`). -/
def DISP_BPP : Nat := 2

/-- Size in bytes of one framebuffer (`FB_SIZE`). -/
def FB_SIZE : Nat := DISP_WIDTH * DISP_HEIGHT * DISP_BPP

/-- An LVGL area rectangle (`lv_area_t`): corners are inclusive. -/
structure Area where
  x1 : Nat
  y1 : Nat
  x2 : Nat
  y2 : Nat

/-- Tile width in pixels, `w = area->x2 - area->x1 + 1`. -/
def areaW (a : Area) : Nat := a.x2 - a.x1 + 1

/-- Tile height in pixels, `h = area->y2 - area->y1 + 1`. -/
def areaH (a : Area) : Nat := a.y2 - a.y1 + 1

/-- System state: the byte contents of the three physical buffers and
the current role assignment (`work_buf`, `back_buf`, `front_buf`), plus
the buffer address last advertised to the LCD panel. -/
structure TBState where
  bufs : Fin 3 → Nat → Nat
  work : Fin 3
  back : Fin 3
  front : Fin 3
  panel : Fin 3

/-- Byte-level `memcpy(dst + dstOff, src + srcOff, len)` on maps:
offsets in `[dstOff, dstOff + len)` take the corresponding source
bytes, all other offsets keep the destination bytes. -/
def memcpyBytes (dst src : Nat → Nat) (dstOff srcOff len : Nat) : Nat → Nat :=
  fun o => if dstOff ≤ o ∧ o < dstOff + len then src (srcOff + (o - dstOff)) else dst o

/-- Destination byte offset of row `r` of a tile in the Work buffer:
`((area->y1 + r) * DISP_WIDTH + area->x1) * 2`. -/
def rowStart (a : Area) (r : Nat) : Nat := ((a.y1 + r) * DISP_WIDTH + a.x1) * 2

/-- The row-copy loop of `lvgl_flush_cb`: for each row `y` below the
given row count, copy `w * 2` bytes from the payload at byte offset
`y * w * 2` to the buffer at byte offset `rowStart a y`.  Rows are
applied in loop order: row `y` is written after rows `0..y-1`. -/
def copyRows (a : Area) (pixels buf : Nat → Nat) : Nat → Nat → Nat
  | 0 => buf
  | y + 1 =>
    memcpyBytes (copyRows a pixels buf y) pixels (rowStart a y)
      (y * (areaW a * 2)) (areaW a * 2)

/-- The tile-composition part of `lvgl_flush_cb` (lines 155-164): the
row loop writes into whichever buffer currently holds the Work role;
the other buffers are untouched. -/
def flushWork (st : TBState) (area : Area) (pixels : Nat → Nat) : TBState :=
  { st with
    bufs := fun i =>
      if i = st.work then copyRows area pixels (st.bufs st.work) (areaH area)
      else st.bufs i }

/-- Full-buffer copy between two of the three buffers (`memcpy` or the
completed GDMA transfer): bytes `[0, len)` of `dst` take the bytes of
`src`, everything else is unchanged. -/
def memcpyBuf (bufs : Fin 3 → Nat → Nat) (dst src : Fin 3) (len : Nat) :
    Fin 3 → Nat → Nat :=
  fun i o => if i = dst ∧ o < len then bufs src o else bufs i o

/-- Model of `gdma_copy_buffer` (lines 97-114).  `submitOk` models whether
`esp_async_memcpy` returns `ESP_OK`.  On success the DMA performs the
copy and the caller blocks on the completion semaphore (second
component `true`); on synchronous submission failure the caller falls
back to an immediate CPU `memcpy` and returns without waiting on the
semaphore (second component `false`).  In both cases the destination
ends up holding the source bytes and no error is returned. -/
def gdma_copy_buffer (bufs : Fin 3 → Nat → Nat) (dst src : Fin 3)
    (len : Nat) (submitOk : Bool) : (Fin 3 → Nat → Nat) × Bool :=
  if submitOk then (memcpyBuf bufs dst src len, true)
  else (memcpyBuf bufs dst src len, false)

/-- Model of `swap_buffers` (lines 124-133): exchanges the Back and Front roles
and advertises the new Front buffer to the LCD panel via
`esp_lcd_panel_draw_bitmap`.  Buffer contents and the Work role are
untouched. -/
def swap_buffers (st : TBState) : TBState :=
  { st with front := st.back, back := st.front, panel := st.back }

/-- The finalize sequence run on the last flush of a frame (lines
167-169): GDMA copy of the whole Work buffer into the Back buffer,
blocking wait for completion, then the Back/Front role swap. -/
def finalizeFrame (st : TBState) (submitOk : Bool) : TBState :=
  swap_buffers
    { st with bufs := (gdma_copy_buffer st.bufs st.back st.work FB_SIZE submitOk).1 }

/-- Model of `lvgl_flush_cb` (lines 149-173): copy the tile rows into the Work
buffer; if this is the last flush of the frame
(`lv_disp_flush_is_last`), run the finalize sequence.  The second
component records that `lv_disp_flush_ready` is called, which happens
on every path. -/
def lvgl_flush_cb (st : TBState) (area : Area) (pixels : Nat → Nat)
    (isLast submitOk : Bool) : TBState × Bool :=
  if isLast then (finalizeFrame (flushWork st area pixels) submitOk, true)
  else (flushWork st area pixels, true)

/-- The byte offsets of the Work buffer covered by a tile: all offsets
inside some row range `[rowStart a r, rowStart a r + w * 2)` with
`r` below the tile height. -/
def inTileFootprint (a : Area) (o : Nat) : Prop :=
  ∃ r, r < areaH a ∧ rowStart a r ≤ o ∧ o < rowStart a r + areaW a * 2

/-- The delay clamp at the end of `lvgl_task` (lines 329-330):
`(t < 1) ? 1 : (t > 10) ? 10 : t`. -/
def lvgl_task_delay (t : Nat) : Nat :=
  if t < 1 then 1 else if t > 10 then 10 else t

/-- Observable outcome of `allocate_buffers`: the returned status,
which allocation (if any) each of the three global buffer pointers
holds, which allocations were released before returning, and the byte
contents of the allocations. -/
structure AllocResult where
  ok : Bool
  work_buf : Option (Fin 3)
  front_buf : Option (Fin 3)
  back_buf : Option (Fin 3)
  freed : List (Fin 3)
  bufs : Fin 3 → Nat → Nat

/-- Model of `allocate_buffers` (lines 190-211).  `allocOk i` says whether the
`i`-th `heap_caps_aligned_alloc` call succeeds; `init` is the
uninitialised contents of the allocations.  The source performs the
three allocations in the order `work_buf`, `front_buf`, `back_buf`;
if any came back `NULL` it returns `ESP_ERR_NO_MEM` without freeing
anything, otherwise it `memset`s all three buffers to zero and
returns `ESP_OK`. -/
def allocate_buffers (allocOk : Fin 3 → Bool) (init : Fin 3 → Nat → Nat) :
    AllocResult :=
  if allocOk 0 && allocOk 1 && allocOk 2 then
    { ok := true
      work_buf := some 0
      front_buf := some 1
      back_buf := some 2
      freed := []
      bufs := fun i o => if o < FB_SIZE then 0 else init i o }
  else
    { ok := false
      work_buf := if allocOk 0 then some 0 else none
      front_buf := if allocOk 1 then some 1 else none
      back_buf := if allocOk 2 then some 2 else none
      freed := []
      bufs := init }

/-- The 100x50 tile at position (10,10) of Scenario A:
`x1 = 10, y1 = 10, x2 = 109, y2 = 59`. -/
def tileA : Area := ⟨10, 10, 109, 59⟩

/-- An all-white RGB565 payload: every byte is `0xFF`, so every 16-bit
pixel is `0xFFFF`. -/
def pxWhite : Nat → Nat := fun _ => 0xFF

/-- A boundary tile touching the last valid pixel of the display:
`x2 = DISP_WIDTH - 1 = 719` and `y2 = DISP_HEIGHT - 1 = 719`. -/
def tileB : Area := ⟨719, 719, 719, 719⟩

/-- The state right after successful startup: all three buffers
zeroed, roles as assigned by `allocate_buffers` / the globals
(`work_buf` = allocation 0, `front_buf` = allocation 1, `back_buf` =
allocation 2), panel showing the Front buffer. -/
def st0 : TBState :=
  { bufs := fun _ _ => 0, work := 0, back := 2, front := 1, panel := 1 }

/-- Three buffers with pairwise distinct contents, used to instantiate
universally quantified theorems at a concrete input. -/
def bufsW : Fin 3 → Nat → Nat := fun i o => i.val * 100 + o

/-- Distinct rows of an in-bounds tile occupy disjoint byte ranges of
the Work buffer: row `r` ends at or before row `y` begins whenever
`r < y` and the tile width does not exceed the display width. -/
theorem rowStart_disjoint (a : Area) (hw : areaW a ≤ DISP_WIDTH)
    (r y : Nat) (hry : r < y) :
    rowStart a r + areaW a * 2 ≤ rowStart a y := by
  have h720 : DISP_WIDTH = 720 := rfl
  simp only [rowStart, h720]
  rw [h720] at hw
  omega

/-- Reading a byte inside row `r` of the tile after the row loop gives
the corresponding payload byte: rows written later lie strictly above
it, so they do not clobber it. -/
theorem copyRows_in (a : Area) (pixels buf : Nat → Nat)
    (hw : areaW a ≤ DISP_WIDTH) (h r j : Nat) (hr : r < h)
    (hj : j < areaW a * 2) :
    copyRows a pixels buf h (rowStart a r + j) = pixels (r * (areaW a * 2) + j) := by
  induction h with
  | zero => exact absurd hr (Nat.not_lt_zero r)
  | succ y ih =>
    simp only [copyRows, memcpyBytes]
    by_cases hry : r = y
    · subst hry
      rw [if_pos ⟨Nat.le_add_right _ _, by omega⟩, Nat.add_sub_cancel_left]
    · have hlt : r < y := by omega
      have hdisj := rowStart_disjoint a hw r y hlt
      rw [if_neg (by omega)]
      exact ih hlt

/-- A byte offset outside every row range of the tile is untouched by
the row loop. -/
theorem copyRows_out (a : Area) (pixels buf : Nat → Nat) (h o : Nat)
    (hout : ∀ r, r < h → ¬(rowStart a r ≤ o ∧ o < rowStart a r + areaW a * 2)) :
    copyRows a pixels buf h o = buf o := by
  induction h with
  | zero => rfl
  | succ y ih =>
    simp only [copyRows, memcpyBytes]
    rw [if_neg (hout y (Nat.lt_succ_self y))]
    exact ih fun r hr => hout r (Nat.lt_succ_of_lt hr)

/-- Row-stride correctness of the tile-composition step alone: after
`flushWork`, byte `j` of row `r` of the tile footprint in the Work
buffer equals byte `j` of row `r` of the payload. -/
theorem flushWork_row (st : TBState) (area : Area) (pixels : Nat → Nat)
    (hw : areaW area ≤ DISP_WIDTH) (r j : Nat) (hr : r < areaH area)
    (hj : j < areaW area * 2) :
    (flushWork st area pixels).bufs st.work (rowStart area r + j) =
      pixels (r * (areaW area * 2) + j) := by
  simp only [flushWork]
  rw [if_pos trivial]
  exact copyRows_in area pixels (st.bufs st.work) hw (areaH area) r j hr hj

/-- The tile write `flushWork` leaves every buffer other than the Work one untouched
and does not change the role assignment. -/
theorem flushWork_other (st : TBState) (area : Area) (pixels : Nat → Nat)
    (i : Fin 3) (hi : i ≠ st.work) :
    (flushWork st area pixels).bufs i = st.bufs i := by
  simp only [flushWork]
  rw [if_neg hi]

/-- The GDMA copy performs the same full-range overwrite whether the
asynchronous submission succeeded or fell back to CPU `memcpy`. -/
theorem gdma_copy_buffer_fst (bufs : Fin 3 → Nat → Nat) (dst src : Fin 3)
    (len : Nat) (submitOk : Bool) :
    (gdma_copy_buffer bufs dst src len submitOk).1 = memcpyBuf bufs dst src len := by
  cases submitOk <;> rfl

/-- Claim C2: swap exchanges the Back and Front roles, leaves the Work
role unchanged, and copies no buffer data. -/
theorem c2_swap_pure_permutation (st : TBState) :
    (swap_buffers st).front = st.back ∧
    (swap_buffers st).back = st.front ∧
    (swap_buffers st).work = st.work ∧
    (swap_buffers st).bufs = st.bufs :=
  ⟨rfl, rfl, rfl, rfl⟩

/-- Claim C9: the delay actually slept is the suggested delay clamped
to the closed interval [1, 10] milliseconds. -/
theorem c9_delay_clamped (t : Nat) : lvgl_task_delay t = min (max t 1) 10 := by
  unfold lvgl_task_delay
  split
  · omega
  · split <;> omega

/-- Claim C4: when asynchronous submission fails synchronously, the
caller does an immediate CPU copy and returns without waiting on the
completion semaphore; afterwards the destination bytes below `len`
equal the source bytes, and no error is surfaced. -/
theorem c4_submit_fail_fallback (bufs : Fin 3 → Nat → Nat) (dst src : Fin 3)
    (len o : Nat) (ho : o < len) :
    (gdma_copy_buffer bufs dst src len false).2 = false ∧
    (gdma_copy_buffer bufs dst src len false).1 dst o = bufs src o ∧
    (gdma_copy_buffer bufs dst src len false).1 dst o =
      (gdma_copy_buffer bufs dst src len false).1 src o := by
  refine ⟨rfl, ?_, ?_⟩ <;> simp [gdma_copy_buffer, memcpyBuf, ho]

/-- Witness for C4 at a concrete copy request. -/
theorem c4_submit_fail_fallback_witness :
    (0 : Nat) < 4 ∧
    ((gdma_copy_buffer bufsW 1 0 4 false).2 = false ∧
     (gdma_copy_buffer bufsW 1 0 4 false).1 1 0 = bufsW 0 0 ∧
     (gdma_copy_buffer bufsW 1 0 4 false).1 1 0 =
       (gdma_copy_buffer bufsW 1 0 4 false).1 0 0) :=
  ⟨by decide, c4_submit_fail_fallback bufsW 1 0 4 0 (by decide)⟩

/-- The finalize sequence leaves the Work role where it was. -/
theorem finalizeFrame_work (st : TBState) (submitOk : Bool) :
    (finalizeFrame st submitOk).work = st.work := by
  cases submitOk <;> rfl

/-- After the finalize sequence, the Front role names the buffer that
held the Back role. -/
theorem finalizeFrame_front (st : TBState) (submitOk : Bool) :
    (finalizeFrame st submitOk).front = st.back := by
  cases submitOk <;> rfl

/-- After the finalize sequence, the Back role names the buffer that
held the Front role. -/
theorem finalizeFrame_back (st : TBState) (submitOk : Bool) :
    (finalizeFrame st submitOk).back = st.front := by
  cases submitOk <;> rfl

/-- The finalize sequence overwrites bytes `[0, FB_SIZE)` of the Back
buffer with the Work buffer and changes nothing else, whether the
asynchronous submission succeeded or fell back to CPU copy. -/
theorem finalizeFrame_bufs (st : TBState) (submitOk : Bool) :
    (finalizeFrame st submitOk).bufs = memcpyBuf st.bufs st.back st.work FB_SIZE := by
  cases submitOk <;> rfl

/-- The row loop of `flushWork` leaves untouched every Work-buffer byte
outside the tile footprint. -/
theorem flushWork_outside (st : TBState) (area : Area) (pixels : Nat → Nat)
    (o : Nat) (ho : ¬ inTileFootprint area o) :
    (flushWork st area pixels).bufs st.work o = st.bufs st.work o := by
  simp only [flushWork]
  rw [if_pos trivial]
  exact copyRows_out area pixels (st.bufs st.work) (areaH area) o
    fun r hr hc => ho ⟨r, hr, hc.1, hc.2⟩

/-- An in-bounds tile is no wider than the display. -/
theorem areaW_le_width (area : Area) (hx1 : area.x1 ≤ area.x2)
    (hx2 : area.x2 < DISP_WIDTH) : areaW area ≤ DISP_WIDTH := by
  simp only [areaW, DISP_WIDTH] at hx2 ⊢
  omega

/-- Claim C1: for an in-bounds tile, immediately after the flush
callback returns (whether or not it was the last flush of the frame),
every byte of every row of the tile footprint in the Work buffer
equals the corresponding payload byte. -/
theorem c1_writeTile_row_stride (st : TBState) (area : Area)
    (pixels : Nat → Nat) (isLast submitOk : Bool)
    (hx1 : area.x1 ≤ area.x2) (hx2 : area.x2 < DISP_WIDTH)
    (hy1 : area.y1 ≤ area.y2) (hy2 : area.y2 < DISP_HEIGHT)
    (hwb : st.work ≠ st.back)
    (r j : Nat) (hr : r < areaH area) (hj : j < areaW area * 2) :
    (lvgl_flush_cb st area pixels isLast submitOk).1.bufs
        (lvgl_flush_cb st area pixels isLast submitOk).1.work
        (rowStart area r + j) =
      pixels (r * (areaW area * 2) + j) := by
  have hw : areaW area ≤ DISP_WIDTH := areaW_le_width area hx1 hx2
  cases isLast
  · exact flushWork_row st area pixels hw r j hr hj
  · show (finalizeFrame (flushWork st area pixels) submitOk).bufs
        (finalizeFrame (flushWork st area pixels) submitOk).work
        (rowStart area r + j) = pixels (r * (areaW area * 2) + j)
    rw [finalizeFrame_work, finalizeFrame_bufs]
    show memcpyBuf (flushWork st area pixels).bufs st.back st.work FB_SIZE
        st.work (rowStart area r + j) = pixels (r * (areaW area * 2) + j)
    simp only [memcpyBuf]
    rw [if_neg fun hc => hwb hc.1]
    exact flushWork_row st area pixels hw r j hr hj

/-- Witness for C1: the first byte of the first row of the Scenario A
tile, written as a non-final flush from the startup state. -/
theorem c1_writeTile_row_stride_witness :
    (tileA.x1 ≤ tileA.x2 ∧ tileA.x2 < DISP_WIDTH ∧ tileA.y1 ≤ tileA.y2 ∧
      tileA.y2 < DISP_HEIGHT ∧ st0.work ≠ st0.back ∧ 0 < areaH tileA ∧
      0 < areaW tileA * 2) ∧
    (lvgl_flush_cb st0 tileA pxWhite false true).1.bufs
        (lvgl_flush_cb st0 tileA pxWhite false true).1.work
        (rowStart tileA 0 + 0) =
      pxWhite (0 * (areaW tileA * 2) + 0) :=
  ⟨by decide,
   c1_writeTile_row_stride st0 tileA pxWhite false true (by decide) (by decide)
     (by decide) (by decide) (by decide) 0 0 (by decide) (by decide)⟩

/-- Claim C7: running the finalize sequence twice with no intervening
tile writes leaves the content of the buffer tagged Front (over the
framebuffer extent) the same after the second call as after the
first. -/
theorem c7_finalize_idempotent (st : TBState) (s1 s2 : Bool) (o : Nat)
    (ho : o < FB_SIZE) :
    (finalizeFrame (finalizeFrame st s1) s2).bufs
        (finalizeFrame (finalizeFrame st s1) s2).front o =
      (finalizeFrame st s1).bufs (finalizeFrame st s1).front o := by
  simp only [finalizeFrame_front, finalizeFrame_back, finalizeFrame_work,
    finalizeFrame_bufs]
  simp [memcpyBuf, ho]

/-- Witness for C7: two finalize calls from the startup state, checked
at byte offset 0. -/
theorem c7_finalize_idempotent_witness :
    (0 : Nat) < FB_SIZE ∧
    (finalizeFrame (finalizeFrame st0 true) true).bufs
        (finalizeFrame (finalizeFrame st0 true) true).front 0 =
      (finalizeFrame st0 true).bufs (finalizeFrame st0 true).front 0 :=
  ⟨by decide, c7_finalize_idempotent st0 true true 0 (by decide)⟩

/-- Claim C8: for an in-bounds tile (including one touching the last
valid pixel), every byte offset the row loop writes lies strictly
below `FB_SIZE`, and no Work-buffer byte outside the computed per-row
ranges is written. -/
theorem c8_no_out_of_bounds (st : TBState) (area : Area) (pixels : Nat → Nat)
    (hx1 : area.x1 ≤ area.x2) (hx2 : area.x2 < DISP_WIDTH)
    (hy1 : area.y1 ≤ area.y2) (hy2 : area.y2 < DISP_HEIGHT) :
    (∀ o, inTileFootprint area o → o < FB_SIZE) ∧
    (∀ o, ¬ inTileFootprint area o →
      (flushWork st area pixels).bufs st.work o = st.bufs st.work o) := by
  constructor
  · rintro o ⟨r, hr, hlo, hhi⟩
    simp only [areaH, areaW, rowStart, FB_SIZE, DISP_WIDTH, DISP_HEIGHT,
      DISP_BPP] at *
    omega
  · exact fun o ho => flushWork_outside st area pixels o ho

/-- Witness for C8: the one-pixel tile at the very last display pixel. -/
theorem c8_no_out_of_bounds_witness :
    (tileB.x1 ≤ tileB.x2 ∧ tileB.x2 < DISP_WIDTH ∧ tileB.y1 ≤ tileB.y2 ∧
      tileB.y2 < DISP_HEIGHT) ∧
    ((∀ o, inTileFootprint tileB o → o < FB_SIZE) ∧
     (∀ o, ¬ inTileFootprint tileB o →
       (flushWork st0 tileB pxWhite).bufs st0.work o = st0.bufs st0.work o)) :=
  ⟨by decide,
   c8_no_out_of_bounds st0 tileB pxWhite (by decide) (by decide) (by decide)
     (by decide)⟩

/-- Claim C10: a flush with `isLastOfFrame = false` keeps the role
assignment and the Back and Front buffer contents unchanged, modifies
the Work buffer only inside the tile footprint, and still issues the
flush-ready acknowledgment. -/
theorem c10_non_last_flush (st : TBState) (area : Area) (pixels : Nat → Nat)
    (submitOk : Bool) (hbw : st.back ≠ st.work) (hfw : st.front ≠ st.work) :
    (lvgl_flush_cb st area pixels false submitOk).2 = true ∧
    (lvgl_flush_cb st area pixels false submitOk).1.work = st.work ∧
    (lvgl_flush_cb st area pixels false submitOk).1.back = st.back ∧
    (lvgl_flush_cb st area pixels false submitOk).1.front = st.front ∧
    (lvgl_flush_cb st area pixels false submitOk).1.bufs st.back = st.bufs st.back ∧
    (lvgl_flush_cb st area pixels false submitOk).1.bufs st.front = st.bufs st.front ∧
    ∀ o, ¬ inTileFootprint area o →
      (lvgl_flush_cb st area pixels false submitOk).1.bufs st.work o =
        st.bufs st.work o :=
  ⟨rfl, rfl, rfl, rfl,
   flushWork_other st area pixels st.back hbw,
   flushWork_other st area pixels st.front hfw,
   fun o ho => flushWork_outside st area pixels o ho⟩

/-- Witness for C10: a non-final Scenario A tile flushed from the
startup state. -/
theorem c10_non_last_flush_witness :
    (st0.back ≠ st0.work ∧ st0.front ≠ st0.work) ∧
    ((lvgl_flush_cb st0 tileA pxWhite false true).2 = true ∧
     (lvgl_flush_cb st0 tileA pxWhite false true).1.work = st0.work ∧
     (lvgl_flush_cb st0 tileA pxWhite false true).1.back = st0.back ∧
     (lvgl_flush_cb st0 tileA pxWhite false true).1.front = st0.front ∧
     (lvgl_flush_cb st0 tileA pxWhite false true).1.bufs st0.back =
       st0.bufs st0.back ∧
     (lvgl_flush_cb st0 tileA pxWhite false true).1.bufs st0.front =
       st0.bufs st0.front ∧
     ∀ o, ¬ inTileFootprint tileA o →
       (lvgl_flush_cb st0 tileA pxWhite false true).1.bufs st0.work o =
         st0.bufs st0.work o) :=
  ⟨by decide, c10_non_last_flush st0 tileA pxWhite true (by decide) (by decide)⟩

/-- Each byte of the Scenario A tile footprint in the Work buffer holds
`0xFF` after the tile rows are copied in: position `(r, c)` with
`10 ≤ r < 60` and `10 ≤ c < 110`, byte `b` of the pixel. -/
theorem c3_work_byte (r c b : Nat) (hr1 : 10 ≤ r) (hr2 : r < 60)
    (hc1 : 10 ≤ c) (hc2 : c < 110) (hb : b < 2) :
    (flushWork st0 tileA pxWhite).bufs st0.work
      ((r * DISP_WIDTH + c) * 2 + b) = 0xFF := by
  have hoff : (r * DISP_WIDTH + c) * 2 + b =
      rowStart tileA (r - 10) + ((c - 10) * 2 + b) := by
    simp only [rowStart, DISP_WIDTH, tileA]
    omega
  rw [hoff, flushWork_row st0 tileA pxWhite (by decide) (r - 10) ((c - 10) * 2 + b)
    (by have h : areaH tileA = 50 := rfl; omega)
    (by have h : areaW tileA = 100 := rfl; omega)]
  rfl

/-- Claim C3 (Scenario A): after flushing the all-white 100x50 tile at
(10,10) as the last tile of the frame, both bytes of every pixel in
rows 10-59, columns 10-109, are `0xFF` in the Work buffer, and the
buffer then tagged Front holds `0xFF` over the same region. -/
theorem c3_scenarioA (submitOk : Bool) (r c : Nat)
    (hr1 : 10 ≤ r) (hr2 : r < 60) (hc1 : 10 ≤ c) (hc2 : c < 110) :
    ((lvgl_flush_cb st0 tileA pxWhite true submitOk).1.bufs
        (lvgl_flush_cb st0 tileA pxWhite true submitOk).1.work
        ((r * DISP_WIDTH + c) * 2) = 0xFF ∧
     (lvgl_flush_cb st0 tileA pxWhite true submitOk).1.bufs
        (lvgl_flush_cb st0 tileA pxWhite true submitOk).1.work
        ((r * DISP_WIDTH + c) * 2 + 1) = 0xFF) ∧
    ((lvgl_flush_cb st0 tileA pxWhite true submitOk).1.bufs
        (lvgl_flush_cb st0 tileA pxWhite true submitOk).1.front
        ((r * DISP_WIDTH + c) * 2) = 0xFF ∧
     (lvgl_flush_cb st0 tileA pxWhite true submitOk).1.bufs
        (lvgl_flush_cb st0 tileA pxWhite true submitOk).1.front
        ((r * DISP_WIDTH + c) * 2 + 1) = 0xFF) := by
  have hwork : ∀ b, b < 2 →
      (lvgl_flush_cb st0 tileA pxWhite true submitOk).1.bufs
        (lvgl_flush_cb st0 tileA pxWhite true submitOk).1.work
        ((r * DISP_WIDTH + c) * 2 + b) = 0xFF := by
    intro b hb
    show (finalizeFrame (flushWork st0 tileA pxWhite) submitOk).bufs
        (finalizeFrame (flushWork st0 tileA pxWhite) submitOk).work
        ((r * DISP_WIDTH + c) * 2 + b) = 0xFF
    rw [finalizeFrame_work, finalizeFrame_bufs]
    show memcpyBuf (flushWork st0 tileA pxWhite).bufs st0.back st0.work FB_SIZE
        st0.work ((r * DISP_WIDTH + c) * 2 + b) = 0xFF
    simp only [memcpyBuf]
    rw [if_neg fun hc => absurd hc.1 (by decide)]
    exact c3_work_byte r c b hr1 hr2 hc1 hc2 hb
  have hfront : ∀ b, b < 2 →
      (lvgl_flush_cb st0 tileA pxWhite true submitOk).1.bufs
        (lvgl_flush_cb st0 tileA pxWhite true submitOk).1.front
        ((r * DISP_WIDTH + c) * 2 + b) = 0xFF := by
    intro b hb
    show (finalizeFrame (flushWork st0 tileA pxWhite) submitOk).bufs
        (finalizeFrame (flushWork st0 tileA pxWhite) submitOk).front
        ((r * DISP_WIDTH + c) * 2 + b) = 0xFF
    rw [finalizeFrame_front, finalizeFrame_bufs]
    show memcpyBuf (flushWork st0 tileA pxWhite).bufs st0.back st0.work FB_SIZE
        st0.back ((r * DISP_WIDTH + c) * 2 + b) = 0xFF
    simp only [memcpyBuf]
    rw [if_pos ⟨trivial, by
      simp only [FB_SIZE, DISP_WIDTH, DISP_HEIGHT, DISP_BPP]; omega⟩]
    exact c3_work_byte r c b hr1 hr2 hc1 hc2 hb
  exact ⟨⟨by simpa using hwork 0 (by decide), hwork 1 (by decide)⟩,
         ⟨by simpa using hfront 0 (by decide), hfront 1 (by decide)⟩⟩

/-- Witness for C3: the top-left pixel of the Scenario A region. -/
theorem c3_scenarioA_witness :
    ((10 : Nat) ≤ 10 ∧ (10 : Nat) < 60 ∧ (10 : Nat) ≤ 10 ∧ (10 : Nat) < 110) ∧
    (((lvgl_flush_cb st0 tileA pxWhite true true).1.bufs
        (lvgl_flush_cb st0 tileA pxWhite true true).1.work
        ((10 * DISP_WIDTH + 10) * 2) = 0xFF ∧
      (lvgl_flush_cb st0 tileA pxWhite true true).1.bufs
        (lvgl_flush_cb st0 tileA pxWhite true true).1.work
        ((10 * DISP_WIDTH + 10) * 2 + 1) = 0xFF) ∧
     ((lvgl_flush_cb st0 tileA pxWhite true true).1.bufs
        (lvgl_flush_cb st0 tileA pxWhite true true).1.front
        ((10 * DISP_WIDTH + 10) * 2) = 0xFF ∧
      (lvgl_flush_cb st0 tileA pxWhite true true).1.bufs
        (lvgl_flush_cb st0 tileA pxWhite true true).1.front
        ((10 * DISP_WIDTH + 10) * 2 + 1) = 0xFF)) :=
  ⟨by decide,
   c3_scenarioA true 10 10 (by decide) (by decide) (by decide) (by decide)⟩

/-- Claim C5 (code bug evidence): when the first two allocations
succeed and the third fails, `allocate_buffers` returns the
out-of-memory error while the first two allocations are still held by
the global pointers and nothing has been freed — the already-obtained
buffers are leaked, contrary to the claimed release-on-error. -/
theorem c5_partial_alloc_leak :
    (allocate_buffers (fun i => decide (i.val < 2)) (fun _ _ => 0)).ok = false ∧
    (allocate_buffers (fun i => decide (i.val < 2)) (fun _ _ => 0)).work_buf = some 0 ∧
    (allocate_buffers (fun i => decide (i.val < 2)) (fun _ _ => 0)).front_buf = some 1 ∧
    (allocate_buffers (fun i => decide (i.val < 2)) (fun _ _ => 0)).freed = [] :=
  ⟨rfl, rfl, rfl, rfl⟩

/-- Counterexample to Claim C6 as stated: after a fully successful
allocation the source assigns the second allocation to `front_buf` and
the third to `back_buf`, so the claimed assignment Back = second
allocation, Front = third allocation is false. -/
theorem c6_roles_counterexample :
    ¬ ((allocate_buffers (fun _ => true) (fun _ _ => 0)).work_buf = some 0 ∧
       (allocate_buffers (fun _ => true) (fun _ _ => 0)).back_buf = some 1 ∧
       (allocate_buffers (fun _ => true) (fun _ _ => 0)).front_buf = some 2) := by
  decide

/-- Claim C6 as amended: when all three allocations succeed, the roles
are Work = first allocation, Front = second allocation, Back = third
allocation, and every byte of each buffer below `FB_SIZE` is
zero-initialized. -/
theorem c6_alloc_success_roles (allocOk : Fin 3 → Bool)
    (init : Fin 3 → Nat → Nat)
    (h : (allocate_buffers allocOk init).ok = true) :
    (allocate_buffers allocOk init).work_buf = some 0 ∧
    (allocate_buffers allocOk init).front_buf = some 1 ∧
    (allocate_buffers allocOk init).back_buf = some 2 ∧
    ∀ i o, o < FB_SIZE → (allocate_buffers allocOk init).bufs i o = 0 := by
  by_cases hall : allocOk 0 && allocOk 1 && allocOk 2
  · simp only [allocate_buffers, if_pos hall]
    refine ⟨trivial, trivial, trivial, fun i o ho => ?_⟩
    rw [if_pos ho]
  · simp only [allocate_buffers, if_neg hall] at h
    exact absurd h (by simp)

/-- Witness for amended C6: all three allocations succeed on a pool
whose uninitialised contents are nonzero. -/
theorem c6_alloc_success_roles_witness :
    (allocate_buffers (fun _ => true) (fun _ _ => 7)).ok = true ∧
    ((allocate_buffers (fun _ => true) (fun _ _ => 7)).work_buf = some 0 ∧
     (allocate_buffers (fun _ => true) (fun _ _ => 7)).front_buf = some 1 ∧
     (allocate_buffers (fun _ => true) (fun _ _ => 7)).back_buf = some 2 ∧
     ∀ i o, o < FB_SIZE →
       (allocate_buffers (fun _ => true) (fun _ _ => 7)).bufs i o = 0) :=
  ⟨rfl, c6_alloc_success_roles (fun _ => true) (fun _ _ => 7) rfl⟩
